import Mathlib

/-
Verification of the static debug HTTP server (src/wasm/debug_server.py).

The whole program is one request handler, RequestHandler.do_GET, plus a
startup routine.  We shallow-embed the handler as a pure function from a
filesystem model and the raw request path to the sequence of response
events the handler writes to the client, together with the exception (if
any) that escapes the handler.  Bodies are raw bytes, modelled as lists
of naturals.
-/

namespace DebugServer

/-- Bytes of a file body, one natural per byte. -/
abbrev Bytes := List Nat

/-- A filesystem entry: a regular file with raw byte contents and a
readability flag, or a directory. -/
inductive Entry where
  | file (contents : Bytes) (readable : Bool)
  | dir
deriving DecidableEq

/-- A filesystem: a partial map from path strings to entries. -/
def FS := String → Option Entry

/-- Exceptions the Python runtime raises from the file operations the
handler performs: open on a missing path raises FileNotFoundError, open
on a directory raises IsADirectoryError, open on an unreadable file
raises PermissionError. -/
inductive Exn where
  | fileNotFound
  | isADirectory
  | permissionError
deriving DecidableEq

/-- Python os.path.exists: whether any filesystem entry is at the path. -/
def os.path.exists (fs : FS) (p : String) : Bool :=
  (fs p).isSome

/-- Python open(p, 'rb') followed by file.read(): the raw bytes on
success, the raised exception otherwise. -/
def openRead (fs : FS) (p : String) : Except Exn Bytes :=
  match fs p with
  | none => .error .fileNotFound
  | some .dir => .error .isADirectory
  | some (.file contents true) => .ok contents
  | some (.file _ false) => .error .permissionError

/-- One event written to the client, in order: the status line
(send_response), a header line (send_header), the end of the header
block (end_headers), or a body write (self.wfile.write). -/
inductive Event where
  | sendResponse (status : Nat)
  | sendHeader (name value : String)
  | endHeaders
  | write (body : Bytes)
deriving DecidableEq

/-- Python str.startswith for the two strings the handler compares. -/
def listIsPrefix : List Char → List Char → Bool
  | [], _ => true
  | _ :: _, [] => false
  | a :: as, b :: bs => a == b && listIsPrefix as bs

/-- Python self.path.startswith(pre). -/
def startswith (s pre : String) : Bool :=
  listIsPrefix pre.data s.data

/-- Split a character list at the first occurrence of c; the second
component is none when c does not occur. -/
def splitOnFirst (c : Char) : List Char → List Char × Option (List Char)
  | [] => ([], none)
  | x :: xs =>
    if x = c then ([], some xs)
    else
      let (a, b) := splitOnFirst c xs
      (x :: a, b)

/-- Result of urllib.parse.urlparse restricted to the origin-form
request targets this server receives (no scheme, no authority). -/
structure URL where
  path : String
  query : String
  fragment : String
deriving DecidableEq

/-- Python urllib.parse.urlparse on an origin-form request target: the
fragment follows the first '#', the query follows the first '?' before
that, the path is what remains. -/
def urlparse (s : String) : URL :=
  let (beforeFrag, frag) := splitOnFirst '#' s.data
  let (p, q) := splitOnFirst '?' beforeFrag
  { path := String.mk p
    query := String.mk (q.getD [])
    fragment := String.mk (frag.getD []) }

/-- The body bytes of b'Not Found'. -/
def notFoundBytes : Bytes :=
  [78, 111, 116, 32, 70, 111, 117, 110, 100]

/-- RequestHandler.do_GET, embedded as a pure function of the filesystem
and the raw request target self.path.  The result is the list of events
written to the client, in order, paired with the exception escaping the
handler (none when the handler runs to completion).  The parsed URL is
computed, as in the source, and never used. -/
def do_GET (fs : FS) (path : String) : List Event × Option Exn :=
  let _parsed_path := urlparse path
  if startswith path "/static/" then
    let p := "." ++ path
    if os.path.exists fs p then
      let hdr : List Event :=
        [.sendResponse 200, .sendHeader "Content-type" "text/javascript", .endHeaders]
      match openRead fs p with
      | .ok contents => (hdr ++ [.write contents], none)
      | .error e => (hdr, some e)
    else
      ([.sendResponse 404, .sendHeader "Content-type" "text/plain", .endHeaders,
        .write notFoundBytes], none)
  else
    let p := "./index.html"
    let hdr : List Event :=
      [.sendResponse 200, .sendHeader "Content-type" "text/html",
       .sendHeader "Access-Control-Allow-Origin" "null", .endHeaders]
    match openRead fs p with
    | .ok contents => (hdr ++ [.write contents], none)
    | .error e => (hdr, some e)

/-- Split a character list into the segments between '/' characters. -/
def splitSegs : List Char → List (List Char)
  | [] => [[]]
  | '/' :: rest => [] :: splitSegs rest
  | c :: rest =>
    match splitSegs rest with
    | s :: ss => (c :: s) :: ss
    | [] => [[c]]

/-- Resolve the '.' and '..' segments of a relative path the way the
operating system does when the file is opened: empty and '.' segments
are dropped, '..' pops the last resolved segment. -/
def resolveSegs (stack : List (List Char)) : List (List Char) → List (List Char)
  | [] => stack
  | seg :: rest =>
    if seg = [] then resolveSegs stack rest
    else if seg = ['.'] then resolveSegs stack rest
    else if seg = ['.', '.'] then resolveSegs stack.dropLast rest
    else resolveSegs (stack ++ [seg]) rest

/-- The list of directory segments a relative path actually denotes,
relative to the current working directory, after the operating system
resolves '.' and '..'. -/
def resolvePath (s : String) : List String :=
  (resolveSegs [] (splitSegs s.data)).map String.mk

/-- Python os.path.exists with the filesystem threaded through
explicitly, returning the (unchanged) filesystem it leaves behind. -/
def os.path.existsSt (fs : FS) (p : String) : Bool × FS :=
  ((fs p).isSome, fs)

/-- Python open(p, 'rb') plus read() with the filesystem threaded
through explicitly, returning the (unchanged) filesystem it leaves
behind. -/
def openReadSt (fs : FS) (p : String) : Except Exn Bytes × FS :=
  (openRead fs p, fs)

/-- RequestHandler.do_GET with the filesystem threaded through every
file operation, so that the filesystem the handler leaves behind is
part of the result.  The event/exception component mirrors do_GET. -/
def do_GET_st (fs : FS) (path : String) : (List Event × Option Exn) × FS :=
  let _parsed_path := urlparse path
  if startswith path "/static/" then
    let p := "." ++ path
    let (ex, fs1) := os.path.existsSt fs p
    if ex then
      let hdr : List Event :=
        [.sendResponse 200, .sendHeader "Content-type" "text/javascript", .endHeaders]
      match openReadSt fs1 p with
      | (.ok contents, fs2) => ((hdr ++ [.write contents], none), fs2)
      | (.error e, fs2) => ((hdr, some e), fs2)
    else
      (([.sendResponse 404, .sendHeader "Content-type" "text/plain", .endHeaders,
         .write notFoundBytes], none), fs1)
  else
    let p := "./index.html"
    let hdr : List Event :=
      [.sendResponse 200, .sendHeader "Content-type" "text/html",
       .sendHeader "Access-Control-Allow-Origin" "null", .endHeaders]
    match openReadSt fs p with
    | (.ok contents, fs2) => ((hdr ++ [.write contents], none), fs2)
    | (.error e, fs2) => ((hdr, some e), fs2)

/-- Whether the given open attempt raises. -/
def openFails (fs : FS) (p : String) : Bool :=
  match openRead fs p with
  | .ok _ => false
  | .error _ => true

example : resolvePath "./static/../secret.txt" = ["secret.txt"] := by decide

example : resolvePath "./static/app.js" = ["static", "app.js"] := by decide

example :
    do_GET (fun p => if p = "./static/app.js" then some (.file [1, 2] true) else none)
      "/static/app.js"
    = ([.sendResponse 200, .sendHeader "Content-type" "text/javascript", .endHeaders,
        .write [1, 2]], none) := by decide

example :
    do_GET (fun _ => none) "/static/app.js"
    = ([.sendResponse 404, .sendHeader "Content-type" "text/plain", .endHeaders,
        .write notFoundBytes], none) := by decide

example :
    do_GET (fun p => if p = "./index.html" then some (.file [60, 62] true) else none) "/foo"
    = ([.sendResponse 200, .sendHeader "Content-type" "text/html",
        .sendHeader "Access-Control-Allow-Origin" "null", .endHeaders,
        .write [60, 62]], none) := by decide

/-- Whether an event is a body write. -/
def isWrite : Event → Bool
  | .write _ => true
  | _ => false

/-- C1: for a GET whose path starts with the literal '/static/', when the
filesystem has a readable regular file at '.' prepended to the request
path, the handler responds 200 with header Content-type: text/javascript
and a body equal to the raw bytes of that file, and no exception
escapes. -/
theorem static_existing_readable_file_served (fs : FS) (path : String) (contents : Bytes)
    (hpre : startswith path "/static/" = true)
    (hfile : fs ("." ++ path) = some (.file contents true)) :
    do_GET fs path =
      ([.sendResponse 200, .sendHeader "Content-type" "text/javascript", .endHeaders,
        .write contents], none) := by
  simp [do_GET, hpre, os.path.exists, openRead, hfile]

theorem static_existing_readable_file_served_witness :
    startswith "/static/app.js" "/static/" = true ∧
    (fun p => if p = "./static/app.js" then some (Entry.file [1, 2, 3] true) else none)
        ("." ++ "/static/app.js") = some (Entry.file [1, 2, 3] true) ∧
    do_GET (fun p => if p = "./static/app.js" then some (Entry.file [1, 2, 3] true) else none)
        "/static/app.js" =
      ([.sendResponse 200, .sendHeader "Content-type" "text/javascript", .endHeaders,
        .write [1, 2, 3]], none) :=
  ⟨by decide, by decide,
    static_existing_readable_file_served
      (fun p => if p = "./static/app.js" then some (Entry.file [1, 2, 3] true) else none)
      "/static/app.js" [1, 2, 3] (by decide) (by decide)⟩

/-- C2: for a GET whose path does not start with '/static/', when
./index.html is a readable regular file, the handler responds 200 with
headers Content-type: text/html and Access-Control-Allow-Origin: null
and a body equal to the raw bytes of ./index.html; the right-hand side
does not mention the path, so the response is independent of the
specific path value. -/
theorem fallback_serves_index (fs : FS) (path : String) (contents : Bytes)
    (hpre : startswith path "/static/" = false)
    (hidx : fs "./index.html" = some (.file contents true)) :
    do_GET fs path =
      ([.sendResponse 200, .sendHeader "Content-type" "text/html",
        .sendHeader "Access-Control-Allow-Origin" "null", .endHeaders,
        .write contents], none) := by
  simp [do_GET, hpre, openRead, hidx]

theorem fallback_serves_index_witness :
    startswith "/foo" "/static/" = false ∧
    (fun p => if p = "./index.html" then some (Entry.file [60, 62] true) else none)
        "./index.html" = some (Entry.file [60, 62] true) ∧
    do_GET (fun p => if p = "./index.html" then some (Entry.file [60, 62] true) else none)
        "/foo" =
      ([.sendResponse 200, .sendHeader "Content-type" "text/html",
        .sendHeader "Access-Control-Allow-Origin" "null", .endHeaders,
        .write [60, 62]], none) :=
  ⟨by decide, by decide,
    fallback_serves_index
      (fun p => if p = "./index.html" then some (Entry.file [60, 62] true) else none)
      "/foo" [60, 62] (by decide) (by decide)⟩

/-- C3: for a GET whose path starts with '/static/', when no filesystem
entry is at '.' prepended to the request path, the handler responds 404
with header Content-type: text/plain and body exactly the bytes of
'Not Found'. -/
theorem static_missing_not_found (fs : FS) (path : String)
    (hpre : startswith path "/static/" = true)
    (hnone : fs ("." ++ path) = none) :
    do_GET fs path =
      ([.sendResponse 404, .sendHeader "Content-type" "text/plain", .endHeaders,
        .write notFoundBytes], none) := by
  simp [do_GET, hpre, os.path.exists, hnone]

theorem static_missing_not_found_witness :
    startswith "/static/missing.js" "/static/" = true ∧
    (fun _ => (none : Option Entry)) ("." ++ "/static/missing.js") = none ∧
    do_GET (fun _ => none) "/static/missing.js" =
      ([.sendResponse 404, .sendHeader "Content-type" "text/plain", .endHeaders,
        .write notFoundBytes], none) :=
  ⟨by decide, rfl,
    static_missing_not_found (fun _ => none) "/static/missing.js" (by decide) rfl⟩

/-- C4: on the '/static/' branch the handler consults the filesystem
only at the exact string obtained by prepending '.' to the raw request
path (two filesystems agreeing there get identical responses), no
normalization is applied ('.' ++ '/static/../secret.txt' is the literal
'./static/../secret.txt'), and the path the operating system then
resolves for a request carrying a '..' segment lies outside the
./static/ tree: './static/../secret.txt' denotes 'secret.txt' in the
working directory, whose first segment is not 'static'. -/
theorem static_path_unsanitized (fs fs2 : FS) (path : String)
    (hpre : startswith path "/static/" = true)
    (hagree : fs ("." ++ path) = fs2 ("." ++ path)) :
    do_GET fs path = do_GET fs2 path ∧
    "." ++ "/static/../secret.txt" = "./static/../secret.txt" ∧
    resolvePath "./static/../secret.txt" = ["secret.txt"] ∧
    (resolvePath "./static/../secret.txt").head? ≠ some "static" := by
  refine ⟨?_, by decide, by decide, by decide⟩
  simp [do_GET, hpre, os.path.exists, openRead, hagree]

theorem static_path_unsanitized_witness :
    startswith "/static/../secret.txt" "/static/" = true ∧
    (fun _ => (none : Option Entry)) ("." ++ "/static/../secret.txt") =
      (fun p => if p = "./index.html" then some (Entry.file [7] true) else none)
        ("." ++ "/static/../secret.txt") ∧
    (do_GET (fun _ => none) "/static/../secret.txt" =
        do_GET (fun p => if p = "./index.html" then some (Entry.file [7] true) else none)
          "/static/../secret.txt" ∧
      "." ++ "/static/../secret.txt" = "./static/../secret.txt" ∧
      resolvePath "./static/../secret.txt" = ["secret.txt"] ∧
      (resolvePath "./static/../secret.txt").head? ≠ some "static") :=
  ⟨by decide, by decide,
    static_path_unsanitized (fun _ => none)
      (fun p => if p = "./index.html" then some (Entry.file [7] true) else none)
      "/static/../secret.txt" (by decide) (by decide)⟩

/-- C5: the only failure turned into a client-visible error response is
a missing filesystem entry for a '/static/' path, and exactly that case
sends a 404; every other failure — the open failing on the '/static/'
branch after the existence check, or the open of ./index.html failing
on the fallback branch — escapes do_GET as an exception. -/
theorem only_missing_static_is_client_error (fs : FS) (path : String) :
    (Event.sendResponse 404 ∈ (do_GET fs path).1 ↔
      (startswith path "/static/" = true ∧ fs ("." ++ path) = none)) ∧
    ((do_GET fs path).2.isSome = true ↔
      ((startswith path "/static/" = true ∧ (fs ("." ++ path)).isSome = true ∧
          openFails fs ("." ++ path) = true) ∨
        (startswith path "/static/" = false ∧ openFails fs "./index.html" = true))) := by
  by_cases hp : startswith path "/static/" = true
  · cases hfs : fs ("." ++ path) with
    | none => simp [do_GET, hp, os.path.exists, openRead, openFails, hfs]
    | some entry =>
      cases entry with
      | file contents readable =>
        cases readable <;>
          simp [do_GET, hp, os.path.exists, openRead, openFails, hfs]
      | dir => simp [do_GET, hp, os.path.exists, openRead, openFails, hfs]
  · rw [Bool.not_eq_true] at hp
    cases hidx : fs "./index.html" with
    | none => simp [do_GET, hp, openRead, openFails, hidx]
    | some entry =>
      cases entry with
      | file contents readable =>
        cases readable <;> simp [do_GET, hp, openRead, openFails, hidx]
      | dir => simp [do_GET, hp, openRead, openFails, hidx]

/-- C6: whenever an exception escapes do_GET, the events already written
to the client are exactly one of the two 200 header blocks — status line
and headers come before the file is opened — so the client has already
seen a 200 and no body write occurs on that execution. -/
theorem headers_sent_before_body_read (fs : FS) (path : String) (e : Exn)
    (hexn : (do_GET fs path).2 = some e) :
    ((do_GET fs path).1 =
        [Event.sendResponse 200, Event.sendHeader "Content-type" "text/javascript",
          Event.endHeaders] ∨
      (do_GET fs path).1 =
        [Event.sendResponse 200, Event.sendHeader "Content-type" "text/html",
          Event.sendHeader "Access-Control-Allow-Origin" "null", Event.endHeaders]) ∧
    Event.sendResponse 200 ∈ (do_GET fs path).1 ∧
    (do_GET fs path).1.filter isWrite = [] := by
  by_cases hp : startswith path "/static/" = true
  · cases hfs : fs ("." ++ path) with
    | none => simp [do_GET, hp, os.path.exists, hfs] at hexn
    | some entry =>
      cases entry with
      | file contents readable =>
        cases readable with
        | false =>
          refine ⟨Or.inl ?_, ?_, ?_⟩ <;>
            simp [do_GET, hp, os.path.exists, openRead, hfs, isWrite]
        | true => simp [do_GET, hp, os.path.exists, openRead, hfs] at hexn
      | dir =>
        refine ⟨Or.inl ?_, ?_, ?_⟩ <;>
          simp [do_GET, hp, os.path.exists, openRead, hfs, isWrite]
  · rw [Bool.not_eq_true] at hp
    cases hidx : fs "./index.html" with
    | none =>
      refine ⟨Or.inr ?_, ?_, ?_⟩ <;> simp [do_GET, hp, openRead, hidx, isWrite]
    | some entry =>
      cases entry with
      | file contents readable =>
        cases readable with
        | false =>
          refine ⟨Or.inr ?_, ?_, ?_⟩ <;> simp [do_GET, hp, openRead, hidx, isWrite]
        | true => simp [do_GET, hp, openRead, hidx] at hexn
      | dir =>
        refine ⟨Or.inr ?_, ?_, ?_⟩ <;> simp [do_GET, hp, openRead, hidx, isWrite]

theorem headers_sent_before_body_read_witness :
    (do_GET (fun p => if p = "./static/d" then some Entry.dir else none) "/static/d").2 =
      some Exn.isADirectory ∧
    ((do_GET (fun p => if p = "./static/d" then some Entry.dir else none) "/static/d").1 =
        [Event.sendResponse 200, Event.sendHeader "Content-type" "text/javascript",
          Event.endHeaders] ∨
      (do_GET (fun p => if p = "./static/d" then some Entry.dir else none) "/static/d").1 =
        [Event.sendResponse 200, Event.sendHeader "Content-type" "text/html",
          Event.sendHeader "Access-Control-Allow-Origin" "null", Event.endHeaders]) :=
  ⟨by decide,
    (headers_sent_before_body_read
      (fun p => if p = "./static/d" then some Entry.dir else none) "/static/d"
      Exn.isADirectory (by decide)).1⟩

/-- C7: the parsed URL is dead: dispatch and path construction use the
raw request target verbatim, so a query string becomes part of the
consulted filesystem path.  For the target '/static/app.js?v=2' the
parsed path component would be '/static/app.js', yet even when a
readable file is at './static/app.js', if no entry is at the literal
'./static/app.js?v=2' the handler answers 404 Not Found. -/
theorem query_string_reaches_filesystem (fs : FS) (contents : Bytes)
    (hfile : fs "./static/app.js" = some (.file contents true))
    (hq : fs "./static/app.js?v=2" = none) :
    (urlparse "/static/app.js?v=2").path = "/static/app.js" ∧
    "." ++ "/static/app.js?v=2" = "./static/app.js?v=2" ∧
    do_GET fs "/static/app.js?v=2" =
      ([.sendResponse 404, .sendHeader "Content-type" "text/plain", .endHeaders,
        .write notFoundBytes], none) := by
  have hpre : startswith "/static/app.js?v=2" "/static/" = true := by decide
  have happ : "." ++ "/static/app.js?v=2" = "./static/app.js?v=2" := by decide
  refine ⟨by decide, happ, ?_⟩
  simp [do_GET, hpre, os.path.exists, happ, hq]

theorem query_string_reaches_filesystem_witness :
    (fun p => if p = "./static/app.js" then some (Entry.file [42] true) else none)
        "./static/app.js" = some (Entry.file [42] true) ∧
    (fun p => if p = "./static/app.js" then some (Entry.file [42] true) else none)
        "./static/app.js?v=2" = none ∧
    ((urlparse "/static/app.js?v=2").path = "/static/app.js" ∧
      "." ++ "/static/app.js?v=2" = "./static/app.js?v=2" ∧
      do_GET (fun p => if p = "./static/app.js" then some (Entry.file [42] true) else none)
          "/static/app.js?v=2" =
        ([.sendResponse 404, .sendHeader "Content-type" "text/plain", .endHeaders,
          .write notFoundBytes], none)) :=
  ⟨by decide, by decide,
    query_string_reaches_filesystem
      (fun p => if p = "./static/app.js" then some (Entry.file [42] true) else none)
      [42] (by decide) (by decide)⟩

/-- C8: on every run the event trace has a single well-formed response
shape: exactly one status line first, then header events only, then one
end_headers, then the body; the body is exactly one write when the
handler runs to completion and absent exactly when an exception escapes
after the headers. -/
theorem single_response_single_body (fs : FS) (path : String) :
    ∃ s hdrs tail,
      (do_GET fs path).1 = Event.sendResponse s :: hdrs ++ Event.endHeaders :: tail ∧
      (∀ ev ∈ hdrs, ∃ n v, ev = Event.sendHeader n v) ∧
      (((do_GET fs path).2 = none ∧ ∃ b, tail = [Event.write b]) ∨
        ((do_GET fs path).2 ≠ none ∧ tail = [])) := by
  by_cases hp : startswith path "/static/" = true
  · cases hfs : fs ("." ++ path) with
    | none =>
      refine ⟨404, [Event.sendHeader "Content-type" "text/plain"],
        [Event.write notFoundBytes], ?_, ?_, Or.inl ⟨?_, notFoundBytes, rfl⟩⟩ <;>
        simp [do_GET, hp, os.path.exists, hfs]
    | some entry =>
      cases entry with
      | file contents readable =>
        cases readable with
        | false =>
          refine ⟨200, [Event.sendHeader "Content-type" "text/javascript"], [],
            ?_, ?_, Or.inr ⟨?_, rfl⟩⟩ <;>
            simp [do_GET, hp, os.path.exists, openRead, hfs]
        | true =>
          refine ⟨200, [Event.sendHeader "Content-type" "text/javascript"],
            [Event.write contents], ?_, ?_, Or.inl ⟨?_, contents, rfl⟩⟩ <;>
            simp [do_GET, hp, os.path.exists, openRead, hfs]
      | dir =>
        refine ⟨200, [Event.sendHeader "Content-type" "text/javascript"], [],
          ?_, ?_, Or.inr ⟨?_, rfl⟩⟩ <;>
          simp [do_GET, hp, os.path.exists, openRead, hfs]
  · rw [Bool.not_eq_true] at hp
    cases hidx : fs "./index.html" with
    | none =>
      refine ⟨200, [Event.sendHeader "Content-type" "text/html",
        Event.sendHeader "Access-Control-Allow-Origin" "null"], [],
        ?_, ?_, Or.inr ⟨?_, rfl⟩⟩ <;> simp [do_GET, hp, openRead, hidx]
    | some entry =>
      cases entry with
      | file contents readable =>
        cases readable with
        | false =>
          refine ⟨200, [Event.sendHeader "Content-type" "text/html",
            Event.sendHeader "Access-Control-Allow-Origin" "null"], [],
            ?_, ?_, Or.inr ⟨?_, rfl⟩⟩ <;> simp [do_GET, hp, openRead, hidx]
        | true =>
          refine ⟨200, [Event.sendHeader "Content-type" "text/html",
            Event.sendHeader "Access-Control-Allow-Origin" "null"],
            [Event.write contents], ?_, ?_, Or.inl ⟨?_, contents, rfl⟩⟩ <;>
            simp [do_GET, hp, openRead, hidx]
      | dir =>
        refine ⟨200, [Event.sendHeader "Content-type" "text/html",
          Event.sendHeader "Access-Control-Allow-Origin" "null"], [],
          ?_, ?_, Or.inr ⟨?_, rfl⟩⟩ <;> simp [do_GET, hp, openRead, hidx]

/-- C9: the handler is deterministic in the request path and the
filesystem state: two runs against filesystems with identical contents
produce identical event traces and exceptions. -/
theorem handler_deterministic (fs fs2 : FS) (path : String)
    (hsame : ∀ p, fs p = fs2 p) :
    do_GET fs path = do_GET fs2 path := by
  have hf : fs = fs2 := funext hsame
  rw [hf]

theorem handler_deterministic_witness :
    do_GET (fun p => if p = "./index.html" then none else none) "/" =
      do_GET (fun _ => none) "/" :=
  handler_deterministic (fun p => if p = "./index.html" then none else none)
    (fun _ => none) "/" (fun p => by simp)

/-- C10: the handler only reads the filesystem: with the filesystem
threaded through every file operation, the filesystem left behind by
do_GET_st equals the one it started from, for every request, and the
events and exception agree with do_GET. -/
theorem handler_reads_only (fs : FS) (path : String) :
    (do_GET_st fs path).2 = fs ∧ (do_GET_st fs path).1 = do_GET fs path := by
  by_cases hp : startswith path "/static/" = true
  · cases hex : os.path.exists fs ("." ++ path) with
    | false =>
      constructor <;>
        simp [do_GET_st, do_GET, os.path.existsSt, os.path.exists, openReadSt,
          hp, hex] at hex ⊢ <;> simp [hex]
    | true =>
      cases hor : openRead fs ("." ++ path) with
      | ok contents =>
        constructor <;>
          simp [do_GET_st, do_GET, os.path.existsSt, os.path.exists, openReadSt,
            hp, hex, hor] at hex ⊢ <;> simp [hex, hor]
      | error e =>
        constructor <;>
          simp [do_GET_st, do_GET, os.path.existsSt, os.path.exists, openReadSt,
            hp, hex, hor] at hex ⊢ <;> simp [hex, hor]
  · cases hor : openRead fs "./index.html" with
    | ok contents =>
      constructor <;> simp [do_GET_st, do_GET, openReadSt, hp, hor]
    | error e =>
      constructor <;> simp [do_GET_st, do_GET, openReadSt, hp, hor]

end DebugServer
